import Mathlib

/-!
Verification development for the SerialGenius order-tracking server.

Shallow embedding of the relevant parts of the source:

* `shared/schema.ts` — table row shapes (`users`, `machines`, `panels`,
  `orders`, `serials`) and the zod insert schemas.  Notes on fidelity:
  - timestamp columns (`createdAt`, `addedOn`, `confirmationDate`) are
    populated by `defaultNow()` and are read by no operation modelled
    here or mentioned by any claim, so they are omitted from the row
    structures;
  - the `countries` table is only read by a list endpoint and is not
    referenced by any claim, so it is omitted;
  - of the database constraints, the ones a claim depends on are
    modelled where they act: the `unique()` constraint on
    `serials.serial_number` (checked by `createMultipleSerials`, the
    only code path inserting serials) and the foreign key
    `serials.order_id → orders.id`, declared with no `onDelete` action,
    which makes `DELETE FROM orders` fail while a serial references the
    deleted row (checked by `deleteOrder`).  The remaining foreign keys
    are only ever given ids freshly obtained from lookups on the same
    state and no claim exercises them.
* `server/storage.ts` — `DatabaseStorage` methods, translated
  one-for-one: drizzle `select().where(eq(...))` becomes `List.filter`
  with `[x] = rows` destructuring becoming `head?`;
  `orderBy(desc(col)).limit(1)` becomes the maximum row w.r.t. the
  column.  Numbers are JS doubles in the source; ids are integers
  produced by the database identities, modelled as `Nat`, while order
  quantities are arbitrary (finite) numbers that zod neither bounds
  nor forces to be integral, modelled as `ℚ` (see `MachineLine` and
  `unitLoopCount`).
* `server/routes.ts` — the handler bodies for POST `/api/orders`,
  PUT `/api/machines/:id`, DELETE `/api/orders/:id`, and the three
  auth endpoints.  `bcrypt.compare` / `bcrypt.hash` and `jwt.sign` are
  external libraries; the handlers are parameterised over them.
  zod's `insertOrderSchema` constrains only the field types (it has no
  `.min`, `.nonempty` or similar refinement), so a well-typed
  `OrderInput` value always parses; the handlers therefore take the
  structured input directly.
-/

/-- Role column of the `users` table: `"Admin" | "Tech"`. -/
inductive Role where
  | admin
  | tech
deriving DecidableEq

/-- Row of the `users` table (timestamp omitted, see header). -/
structure User where
  id : Nat
  username : String
  email : String
  phone : Option String
  password : String
  role : Role
deriving DecidableEq

/-- Row of the `machines` table. -/
structure Machine where
  id : Nat
  name : String
  productCode : String
  addedBy : Nat
deriving DecidableEq

/-- Row of the `panels` table. -/
structure Panel where
  id : Nat
  name : String
  panelCode : String
  parentMachineId : Nat
  addedBy : Nat
deriving DecidableEq

/-- Progress status enum of the `orders` table:
`"Pending" | "In Progress" | "Completed" | "Confirmed"`. -/
inductive ProgressStatus where
  | pending
  | inProgress
  | completed
  | confirmed
deriving DecidableEq

/-- Payment status enum of the `orders` table:
`"Pending" | "Partial" | "Paid"` (the middle value is named
`partiallyPaid` here). -/
inductive PaymentStatus where
  | pending
  | partiallyPaid
  | paid
deriving DecidableEq

/-- One entry of the `machines` jsonb column of an order:
`{ machineId: number; quantity: number }`.  zod's `z.number()` places
no bound and no integrality requirement on `quantity` (there is no
`.min`, no `.int()`), so a quantity is an arbitrary finite JS number —
for example `0.5` is admitted.  Finite JS doubles are rational, and
the handler only ever uses a quantity as the bound of its per-unit
`for` loop, so `ℚ` carries the admitted inputs faithfully.  (zod
rejects `NaN`; an infinite quantity — which `z.number()` without
`.finite()` also admits — would make the source loop run forever and
the request never answer, so it has no terminating behaviour for this
embedding to model.) -/
structure MachineLine where
  machineId : Nat
  quantity : ℚ
deriving DecidableEq

/-- Row of the `orders` table (timestamps omitted, see header). -/
structure OrderRow where
  id : Nat
  customerName : String
  city : String
  state : String
  countryId : Nat
  quoteNumber : String
  invoiceNumber : String
  dueDate : Nat
  progressStatus : ProgressStatus
  paymentStatus : PaymentStatus
  machines : List MachineLine
  addedBy : Nat
deriving DecidableEq

/-- Payload accepted by `insertOrderSchema` (an `OrderRow` without the
generated id). -/
structure OrderInput where
  customerName : String
  city : String
  state : String
  countryId : Nat
  quoteNumber : String
  invoiceNumber : String
  dueDate : Nat
  progressStatus : ProgressStatus
  paymentStatus : PaymentStatus
  machines : List MachineLine
  addedBy : Nat
deriving DecidableEq

/-- Row of the `serials` table.  `machineId` and `panelId` are the two
nullable columns. -/
structure Serial where
  id : Nat
  orderId : Nat
  machineId : Option Nat
  panelId : Option Nat
  serialNumber : String
  addedBy : Nat
deriving DecidableEq

/-- Payload accepted by `insertSerialSchema` (a `Serial` without the
generated id). -/
structure InsertSerial where
  orderId : Nat
  machineId : Option Nat
  panelId : Option Nat
  serialNumber : String
  addedBy : Nat
deriving DecidableEq

/-- Payload accepted by `insertUserSchema`. -/
structure InsertUser where
  username : String
  email : String
  phone : Option String
  password : String
  role : Role
deriving DecidableEq

/-- The persistent state: the five modelled tables plus the identity
counters behind `generatedAlwaysAsIdentity()`. -/
structure DB where
  users : List User
  machines : List Machine
  panels : List Panel
  orders : List OrderRow
  serials : List Serial
  nextUserId : Nat
  nextOrderId : Nat
  nextSerialId : Nat
deriving DecidableEq

/-- The empty database, counters at 1 (Postgres identities start at 1). -/
def DB.empty : DB :=
  { users := [], machines := [], panels := [], orders := [], serials := []
    nextUserId := 1, nextOrderId := 1, nextSerialId := 1 }

/-! ## storage.ts: DatabaseStorage -/

/-- `getUser`: `select().from(users).where(eq(users.id, id))`, first row. -/
def getUser (db : DB) (id : Nat) : Option User :=
  (db.users.filter (fun u => u.id == id)).head?

/-- `getUserByUsername`. -/
def getUserByUsername (db : DB) (username : String) : Option User :=
  (db.users.filter (fun u => u.username == username)).head?

/-- `getUserByEmail`. -/
def getUserByEmail (db : DB) (email : String) : Option User :=
  (db.users.filter (fun u => u.email == email)).head?

/-- `getMachine`: `select().from(machines).where(eq(machines.id, id))`,
first row. -/
def getMachine (db : DB) (id : Nat) : Option Machine :=
  (db.machines.filter (fun m => m.id == id)).head?

/-- `getPanelsByMachine`:
`select().from(panels).where(eq(panels.parentMachineId, machineId))` —
no ordering clause, so rows come back in insertion order. -/
def getPanelsByMachine (db : DB) (machineId : Nat) : List Panel :=
  db.panels.filter (fun p => p.parentMachineId == machineId)

/-- `orderBy(desc(serials.serialNumber)).limit(1)` over a row set: the
row with the largest `serialNumber` (first such row on ties). -/
def maxBySerialNumber (rows : List Serial) : Option Serial :=
  rows.foldl
    (fun acc s =>
      match acc with
      | none => some s
      | some m => if m.serialNumber < s.serialNumber then some s else some m)
    none

/-- `getLastSerialByPrefix`: translated verbatim from the source, which
filters with `eq(serials.serialNumber, prefix)` — an equality test of
the whole serial number against the bare prefix, not a prefix match —
then takes the first row of `orderBy(desc(serialNumber)).limit(1)`. -/
def getLastSerialByPrefix (db : DB) (pfx : String) : Option Serial :=
  maxBySerialNumber (db.serials.filter (fun s => s.serialNumber == pfx))

/-- `createOrder`: `insert(orders).values(order).returning()` — appends
a row with the next identity value and returns it. -/
def mkOrderRow (id : Nat) (input : OrderInput) : OrderRow :=
  { id := id
    customerName := input.customerName
    city := input.city
    state := input.state
    countryId := input.countryId
    quoteNumber := input.quoteNumber
    invoiceNumber := input.invoiceNumber
    dueDate := input.dueDate
    progressStatus := input.progressStatus
    paymentStatus := input.paymentStatus
    machines := input.machines
    addedBy := input.addedBy }

def createOrder (db : DB) (input : OrderInput) : DB × OrderRow :=
  let row := mkOrderRow db.nextOrderId input
  ({ db with orders := db.orders ++ [row], nextOrderId := db.nextOrderId + 1 },
   row)

/-- Identity assignment for a batch insert into `serials`. -/
def attachIds (n : Nat) : List InsertSerial → List Serial
  | [] => []
  | s :: rest =>
      { id := n, orderId := s.orderId, machineId := s.machineId
        panelId := s.panelId, serialNumber := s.serialNumber
        addedBy := s.addedBy } :: attachIds (n + 1) rest

/-- `createMultipleSerials`: `insert(serials).values(batch).returning()`.
The table declares `serialNumber: text(...).notNull().unique()`, so the
statement succeeds only when the new serial numbers collide neither with
stored rows nor with each other; otherwise the whole insert fails and
the table is unchanged (`none`). -/
def createMultipleSerials (db : DB) (batch : List InsertSerial) : Option DB :=
  if ((db.serials.map (fun s => s.serialNumber))
        ++ batch.map (fun s => s.serialNumber)).Nodup then
    some { db with
            serials := db.serials ++ attachIds db.nextSerialId batch
            nextSerialId := db.nextSerialId + batch.length }
  else
    none

/-- Partial machine payload accepted by
`insertMachineSchema.partial()` on PUT `/api/machines/:id`: every field
of the insert schema, `productCode` included, may be supplied. -/
structure MachinePatch where
  name : Option String
  productCode : Option String
  addedBy : Option Nat
deriving DecidableEq

/-- drizzle `.set(patch)` ignores absent keys and overwrites present
ones. -/
def applyMachinePatch (m : Machine) (p : MachinePatch) : Machine :=
  { m with
      name := p.name.getD m.name
      productCode := p.productCode.getD m.productCode
      addedBy := p.addedBy.getD m.addedBy }

/-- `updateMachine`: `update(machines).set(p).where(eq(machines.id, id))
.returning()`, first returned row. -/
def updateMachine (db : DB) (id : Nat) (p : MachinePatch) :
    DB × Option Machine :=
  let ms := db.machines.map (fun m =>
    if m.id == id then applyMachinePatch m p else m)
  ({ db with machines := ms }, (ms.filter (fun m => m.id == id)).head?)

/-- `deleteOrder`: `delete(orders).where(eq(orders.id, id))`.  The
foreign key `serials.order_id → orders.id` is declared with no
`onDelete` action, so the delete fails (and changes nothing) whenever a
serial still references a row being deleted. -/
def deleteOrder (db : DB) (id : Nat) : Option DB :=
  if (db.orders.any (fun o => o.id == id))
      && (db.serials.any (fun s => s.orderId == id)) then
    none
  else
    some { db with orders := db.orders.filter (fun o => !(o.id == id)) }

/-! ## routes.ts: POST /api/orders -/

/-- JS `String.prototype.padStart(width, c)`. -/
def padStart (s : String) (width : Nat) (c : Char) : String :=
  if width ≤ s.length then s
  else String.mk (List.replicate (width - s.length) c) ++ s

/-- The trailing digit run matched by the regex `/(\d+)$/`, as a
number (`parseInt` of the capture), or `none` when the string does not
end in a digit. -/
def trailingNumber (s : String) : Option Nat :=
  let ds := (s.data.reverse.takeWhile Char.isDigit).reverse
  if ds.isEmpty then none
  else some (ds.foldl (fun a c => a * 10 + (c.toNat - 48)) 0)

/-- Lines 254–262 / 278–286 of `routes.ts`: read the "last" serial for
the product code, parse its trailing digits, add one; default 1. -/
def nextNumberFor (db : DB) (code : String) : Nat :=
  match getLastSerialByPrefix db code with
  | none => 1
  | some lastSerial =>
      match trailingNumber lastSerial.serialNumber with
      | none => 1
      | some n => n + 1

/-- Line 264 / 288: `` `${code}${nextNumber.toString().padStart(3, '0')}` ``. -/
def handlerNextSerial (db : DB) (code : String) : String :=
  code ++ padStart (toString (nextNumberFor db code)) 3 '0'

/-- Iteration count of the source's per-unit loop
`for (let i = 0; i < quantity; i++)`: the number of integers
`i = 0, 1, …` strictly below the (possibly fractional) bound `q` —
zero when `q ≤ 0`, otherwise the ceiling of `q`, written on the
num/den representation so that it evaluates.  In particular a
fractional quantity such as `0.5` runs the loop body once.
`unitLoopCount_spec` below certifies this count against the loop
condition `i < q`. -/
def unitLoopCount (q : ℚ) : Nat :=
  if q.num ≤ 0 then 0 else (q.num.toNat + q.den - 1) / q.den

/-- The serial records one machine line pushes onto `serialsToCreate`:
the machine loop (`for (let i = 0; i < quantity; i++)`), then for each
attached panel the panel loop.  Every lookup reads the same database
state `db` because the handler persists nothing until the final batch
insert. -/
def serialsForLine (db : DB) (orderId addedBy : Nat) (line : MachineLine) :
    List InsertSerial :=
  match getMachine db line.machineId with
  | none => []  -- `if (!machine) continue;`
  | some machine =>
      ((List.range (unitLoopCount line.quantity)).map (fun _ =>
        { orderId := orderId
          machineId := some machine.id
          panelId := none
          serialNumber := handlerNextSerial db machine.productCode
          addedBy := addedBy }))
      ++ (getPanelsByMachine db line.machineId).flatMap (fun panel =>
          (List.range (unitLoopCount line.quantity)).map (fun _ =>
            { orderId := orderId
              machineId := none
              panelId := some panel.id
              serialNumber := handlerNextSerial db panel.panelCode
              addedBy := addedBy }))

/-- The whole `serialsToCreate` array built by the handler. -/
def buildSerials (db : DB) (orderId addedBy : Nat)
    (lines : List MachineLine) : List InsertSerial :=
  lines.flatMap (serialsForLine db orderId addedBy)

/-- Outcome of the POST `/api/orders` handler: HTTP 201 with the order
row, or the catch-all 500 (reached when `createMultipleSerials`
throws). -/
inductive PostOrdersResult where
  | created (order : OrderRow)
  | serverError
deriving DecidableEq

/-- The POST `/api/orders` handler body (lines 235–312 of `routes.ts`),
paired with the database state it leaves behind.  The order row is
inserted first; the serial batch is built from reads of the
already-committed state; the batch insert runs only when non-empty.  A
failing batch insert is caught by the surrounding `try`/`catch`, which
answers 500 — the order row inserted earlier stays committed because no
transaction spans the two writes. -/
def postOrders (db : DB) (input : OrderInput) : DB × PostOrdersResult :=
  let db1 := (createOrder db input).1
  let order := (createOrder db input).2
  let batch := buildSerials db1 order.id input.addedBy input.machines
  if 0 < batch.length then
    match createMultipleSerials db1 batch with
    | some db2 => (db2, PostOrdersResult.created order)
    | none => (db1, PostOrdersResult.serverError)
  else
    (db1, PostOrdersResult.created order)

/-! ## routes.ts: further mutating routes (for the frame claims) -/

/-- Partial order payload accepted by `insertOrderSchema.partial()` on
PUT/PATCH `/api/orders/:id`. -/
structure OrderPatch where
  customerName : Option String
  city : Option String
  state : Option String
  countryId : Option Nat
  quoteNumber : Option String
  invoiceNumber : Option String
  dueDate : Option Nat
  progressStatus : Option ProgressStatus
  paymentStatus : Option PaymentStatus
  machines : Option (List MachineLine)
  addedBy : Option Nat
deriving DecidableEq

def applyOrderPatch (o : OrderRow) (p : OrderPatch) : OrderRow :=
  { o with
      customerName := p.customerName.getD o.customerName
      city := p.city.getD o.city
      state := p.state.getD o.state
      countryId := p.countryId.getD o.countryId
      quoteNumber := p.quoteNumber.getD o.quoteNumber
      invoiceNumber := p.invoiceNumber.getD o.invoiceNumber
      dueDate := p.dueDate.getD o.dueDate
      progressStatus := p.progressStatus.getD o.progressStatus
      paymentStatus := p.paymentStatus.getD o.paymentStatus
      machines := p.machines.getD o.machines
      addedBy := p.addedBy.getD o.addedBy }

/-- `updateOrder`: `update(orders).set(p).where(eq(orders.id, id))
.returning()`, first returned row. -/
def updateOrder (db : DB) (id : Nat) (p : OrderPatch) :
    DB × Option OrderRow :=
  let os := db.orders.map (fun o =>
    if o.id == id then applyOrderPatch o p else o)
  ({ db with orders := os }, (os.filter (fun o => o.id == id)).head?)

/-- `deleteMachine`: `delete(machines).where(eq(machines.id, id))`.
The foreign keys `panels.parent_machine_id → machines.id` and
`serials.machine_id → machines.id` have no `onDelete` action, so the
delete fails while a panel or serial references the deleted row. -/
def deleteMachine (db : DB) (id : Nat) : Option DB :=
  if (db.machines.any (fun m => m.id == id))
      && ((db.panels.any (fun p => p.parentMachineId == id))
          || (db.serials.any (fun s => s.machineId == some id))) then
    none
  else
    some { db with machines := db.machines.filter (fun m => !(m.id == id)) }

/-- `deletePanel`: `delete(panels).where(eq(panels.id, id))`.  The
foreign key `serials.panel_id → panels.id` has no `onDelete` action. -/
def deletePanel (db : DB) (id : Nat) : Option DB :=
  if (db.panels.any (fun p => p.id == id))
      && (db.serials.any (fun s => s.panelId == some id)) then
    none
  else
    some { db with panels := db.panels.filter (fun p => !(p.id == id)) }

/-! ## routes.ts: auth endpoints -/

/-- The user object every auth endpoint answers with: the stored row
after `const { password: _, ...userWithoutPassword } = user` — i.e.
every column except `password`. -/
structure PublicUser where
  id : Nat
  username : String
  email : String
  phone : Option String
  role : Role
deriving DecidableEq

/-- The `{ password: _, ...rest }` destructuring. -/
def omitPassword (u : User) : PublicUser :=
  { id := u.id, username := u.username, email := u.email
    phone := u.phone, role := u.role }

/-- POST `/api/auth/login` (lines 52–73): look the user up by username,
check the password with `bcrypt.compare` (an external library, passed
in as `cmp`), and on success answer with a JWT carrying `user.id` plus
the password-less user object.  `none` is the 401 response. -/
def loginHandler (cmp : String → String → Bool) (db : DB)
    (username password : String) : Option (Nat × PublicUser) :=
  match getUserByUsername db username with
  | none => none
  | some user =>
      if cmp password user.password then some (user.id, omitPassword user)
      else none

/-- `createUser` from storage.ts: hashes the password with
`bcrypt.hash` (passed in as `hash`) and inserts the row. -/
def createUser (hash : String → String) (db : DB) (input : InsertUser) :
    DB × User :=
  let user : User :=
    { id := db.nextUserId, username := input.username, email := input.email
      phone := input.phone, password := hash input.password
      role := input.role }
  ({ db with users := db.users ++ [user], nextUserId := db.nextUserId + 1 },
   user)

/-- POST `/api/auth/register` (lines 75–98): reject an existing
username or email (400, modelled as `none`), otherwise create the user
and answer 201 with the password-less user object. -/
def registerHandler (hash : String → String) (db : DB)
    (input : InsertUser) : DB × Option PublicUser :=
  match getUserByUsername db input.username with
  | some _ => (db, none)
  | none =>
      match getUserByEmail db input.email with
      | some _ => (db, none)
      | none =>
          ((createUser hash db input).1,
           some (omitPassword (createUser hash db input).2))

/-- GET `/api/auth/me` (lines 100–103): the `authenticateToken`
middleware resolves the token's `userId` to a stored user (401 when
none), and the handler answers with the password-less user object. -/
def meHandler (db : DB) (userId : Nat) : Option PublicUser :=
  (getUser db userId).map omitPassword

/-! ## Fixtures shared by the concrete theorems below -/

/-- Admin user used by the concrete states. -/
def adminUser : User :=
  { id := 1, username := "admin", email := "admin@company.com"
    phone := some "+1-555-0101", password := "hashed-admin123"
    role := Role.admin }

/-- The seed machine `CNC Mill Pro X1` with product code `CNC001`. -/
def cncMachine : Machine :=
  { id := 1, name := "CNC Mill Pro X1", productCode := "CNC001", addedBy := 1 }

/-- The seed panel `Control Panel` with panel code `CP001`, attached to
the CNC machine. -/
def cpPanel : Panel :=
  { id := 1, name := "Control Panel", panelCode := "CP001"
    parentMachineId := 1, addedBy := 1 }

/-- A catalog-only state: one admin, the CNC machine, its control
panel, no orders, no serials. -/
def catalogDB : DB :=
  { users := [adminUser], machines := [cncMachine], panels := [cpPanel]
    orders := [], serials := []
    nextUserId := 2, nextOrderId := 1, nextSerialId := 1 }

/-- An order input for the CNC machine with the given quantity. -/
def cncOrderInput (qty : ℚ) : OrderInput :=
  { customerName := "Acme Corp", city := "Springfield", state := "IL"
    countryId := 1, quoteNumber := "Q-100", invoiceNumber := "I-100"
    dueDate := 1755561600000
    progressStatus := ProgressStatus.pending
    paymentStatus := PaymentStatus.pending
    machines := [{ machineId := 1, quantity := qty }]
    addedBy := 1 }

/-! ## Helper lemmas -/

/-- Identity assignment does not touch the serial numbers of a batch. -/
theorem attachIds_map_serialNumber (n : Nat) (batch : List InsertSerial) :
    (attachIds n batch).map (fun s => s.serialNumber)
      = batch.map (fun s => s.serialNumber) := by
  induction batch generalizing n with
  | nil => rfl
  | cons s rest ih => simp [attachIds, ih]

/-- A successful batch insert appends exactly the id-assigned batch and
certifies that the combined serial numbers are duplicate-free. -/
theorem createMultipleSerials_eq_some (db : DB) (batch : List InsertSerial)
    (db2 : DB) (h : createMultipleSerials db batch = some db2) :
    db2.serials = db.serials ++ attachIds db.nextSerialId batch ∧
    ((db.serials.map fun s => s.serialNumber)
      ++ batch.map fun s => s.serialNumber).Nodup := by
  unfold createMultipleSerials at h
  split at h
  next hc =>
    injection h with h
    subst h
    exact ⟨rfl, hc⟩
  next => exact Option.noConfusion h

/-- Certification of `unitLoopCount` against the source loop: iteration
`i = 0, 1, …` of `for (let i = 0; i < q; i++)` executes exactly when
`i < q`, so the body runs `unitLoopCount q` times. -/
theorem unitLoopCount_spec (q : ℚ) (i : ℕ) :
    i < unitLoopCount q ↔ (i : ℚ) < q := by
  have hd : 0 < q.den := Rat.den_pos q
  have hiff : (i : ℚ) < q ↔ (i : ℤ) * q.den < q.num := by
    constructor
    · intro h
      rw [← Rat.num_div_den q, lt_div_iff₀ (by exact_mod_cast hd)] at h
      exact_mod_cast h
    · intro h
      rw [← Rat.num_div_den q, lt_div_iff₀ (by exact_mod_cast hd)]
      exact_mod_cast h
  rw [hiff]
  unfold unitLoopCount
  split
  next hq =>
    constructor
    · intro h
      exact absurd h (Nat.not_lt_zero i)
    · intro h
      have h0 : (0 : ℤ) ≤ (i : ℤ) * q.den := by positivity
      omega
  next hq =>
    push_neg at hq
    have h1 : i < (q.num.toNat + q.den - 1) / q.den
        ↔ (i + 1) * q.den ≤ q.num.toNat + q.den - 1 := by
      rw [Nat.lt_iff_add_one_le, Nat.le_div_iff_mul_le hd]
    rw [h1]
    have hmul : (i + 1) * q.den = i * q.den + q.den := by ring
    have hcast : ((i * q.den : ℕ) : ℤ) = (i : ℤ) * (q.den : ℤ) := by
      push_cast
      ring
    rw [hmul]
    omega

/-- Order creation can only extend the serials table. -/
theorem postOrders_serials_extend (db : DB) (input : OrderInput) :
    ∃ minted, ((postOrders db input).1).serials = db.serials ++ minted := by
  simp only [postOrders]
  split
  · split
    next db2 hsome =>
      exact ⟨attachIds _ _, (createMultipleSerials_eq_some _ _ _ hsome).1⟩
    next => exact ⟨[], by simp [createOrder]⟩
  · exact ⟨[], by simp [createOrder]⟩

/-- One order-creation call preserves duplicate-freedom of the stored
serial numbers: a batch that would introduce a duplicate is rejected by
the unique constraint and nothing is inserted. -/
theorem postOrders_preserves_nodup (db : DB) (input : OrderInput)
    (h : (db.serials.map fun s => s.serialNumber).Nodup) :
    (((postOrders db input).1).serials.map fun s => s.serialNumber).Nodup := by
  simp only [postOrders]
  split
  · split
    next db2 hsome =>
      obtain ⟨hser, hnd⟩ := createMultipleSerials_eq_some _ _ _ hsome
      rw [hser]
      simpa only [List.map_append, attachIds_map_serialNumber] using hnd
    next => exact h
  · exact h

/-- Sequential execution of order-creation calls, keeping only the
database state (the fold of `postOrders`). -/
def applyOrderOps (db : DB) (inputs : List OrderInput) : DB :=
  inputs.foldl (fun d i => (postOrders d i).1) db

/-! ## C1 -/

/-- C1: for every sequence of order-creation operations executed one
after another from a state whose stored serial numbers are
duplicate-free, the stored serial numbers remain duplicate-free —
serialNumber stays globally unique across all serials.  (The guarantee
comes from the `unique()` constraint on `serials.serial_number`: a
colliding batch makes the insert fail, so duplicates never persist.) -/
theorem serial_numbers_globally_unique (db : DB) (inputs : List OrderInput)
    (h : (db.serials.map fun s => s.serialNumber).Nodup) :
    ((applyOrderOps db inputs).serials.map fun s => s.serialNumber).Nodup := by
  induction inputs generalizing db with
  | nil => exact h
  | cons i rest ih =>
      exact ih ((postOrders db i).1) (postOrders_preserves_nodup db i h)

/-- Witness for C1: two consecutive identical orders against the seed
catalog keep the serial-number set duplicate-free. -/
theorem serial_numbers_globally_unique_witness :
    (catalogDB.serials.map fun s => s.serialNumber).Nodup ∧
    ((applyOrderOps catalogDB
        [cncOrderInput 1, cncOrderInput 1]).serials.map
          fun s => s.serialNumber).Nodup :=
  ⟨by decide,
   serial_numbers_globally_unique catalogDB [cncOrderInput 1, cncOrderInput 1]
     (by decide)⟩

/-! ## C2 -/

/-- A state holding one order whose single serial is `CNC001999`. -/
def db999 : DB :=
  { catalogDB with
      orders := [mkOrderRow 1 (cncOrderInput 1)], nextOrderId := 2
      serials := [{ id := 1, orderId := 1, machineId := some 1
                    panelId := none, serialNumber := "CNC001999"
                    addedBy := 1 }]
      nextSerialId := 2 }

/-- Like `db999` but the stored serial is `CNC001001`. -/
def dbOneSerial : DB :=
  { db999 with
      serials := [{ id := 1, orderId := 1, machineId := some 1
                    panelId := none, serialNumber := "CNC001001"
                    addedBy := 1 }] }

/-- Like `db999` but the stored serial number is the bare product code
`CNC001` — the only shape of row the lookup can ever return. -/
def dbBareSerial : DB :=
  { db999 with
      serials := [{ id := 1, orderId := 1, machineId := some 1
                    panelId := none, serialNumber := "CNC001"
                    addedBy := 1 }] }

/-- C2 (code bug): the lookup filters with
`eq(serials.serialNumber, prefix)`, so with the genuinely prefixed
serial `CNC001001` stored — prefix `CNC001`, maximal suffix 1 — it
returns nothing instead of that row; it matches only a row whose whole
serial number equals the bare prefix. -/
theorem last_serial_lookup_misses_prefixed_rows :
    getLastSerialByPrefix dbOneSerial "CNC001" = none ∧
    Option.map (fun s => s.serialNumber)
      ( getLastSerialByPrefix dbBareSerial "CNC001") = some "CNC001" := by
  decide

/-! ## C3 -/

/-- C3 (code bug): with no prior serial for `CNC001`, allocation yields
`CNC001001` exactly as claimed; but with existing maximum `CNC001999`
it yields `CNC001001` again — not the claimed `CNC0011000` — because
the equality-filtered lookup finds nothing and numbering restarts at
1. -/
theorem next_serial_restarts_after_999 :
    handlerNextSerial catalogDB "CNC001" = "CNC001001" ∧
    handlerNextSerial db999 "CNC001" = "CNC001001" ∧
    handlerNextSerial db999 "CNC001" ≠ "CNC0011000" := by
  decide

/-! ## C4 -/

/-- C4 (code bug): within one order-creation call of quantity 2, the
two machine serials (and likewise the two panel serials) receive the
same numeric suffix 001 — not strictly increasing suffixes — because
every per-unit lookup reads the serials table as it was before the
call; the batch is only inserted at the end. -/
theorem single_call_reuses_suffixes :
    (buildSerials catalogDB 1 1
        [{ machineId := 1, quantity := 2 }]).map (fun s => s.serialNumber)
      = ["CNC001001", "CNC001001", "CP001001", "CP001001"] := by
  decide

/-! ## C5 -/

/-- C5 (code bug): a line of quantity 2 for the CNC machine (one
attached panel) should mint 2 machine-tagged and 2 panel-tagged
serials, but the generated batch repeats serial numbers, the unique
constraint rejects the batch insert, the handler answers 500, and zero
serials persist — while the order row does. -/
theorem quantity_two_order_mints_nothing :
    (postOrders catalogDB (cncOrderInput 2)).2
      = PostOrdersResult.serverError ∧
    ((postOrders catalogDB (cncOrderInput 2)).1).serials = [] ∧
    ((postOrders catalogDB (cncOrderInput 2)).1).orders
      = [mkOrderRow 1 (cncOrderInput 2)] := by
  decide

/-! ## C6 -/

/-- A fulfilled state: one order already holding serials `CNC001001`
and `CP001001`. -/
def dbFulfilled : DB :=
  { catalogDB with
      orders := [mkOrderRow 1 (cncOrderInput 1)], nextOrderId := 2
      serials :=
        [{ id := 1, orderId := 1, machineId := some 1, panelId := none
           serialNumber := "CNC001001", addedBy := 1 },
         { id := 2, orderId := 1, machineId := none, panelId := some 1
           serialNumber := "CP001001", addedBy := 1 }]
      nextSerialId := 3 }

/-- C6 counterexample: ordering one more CNC001 unit regenerates the
already-taken serial `CNC001001`, the batch insert fails after the
order header was persisted — and the order row from the failed attempt
remains (one more order than before), refuting all-or-nothing
behaviour. -/
theorem failed_attempt_keeps_order_row :
    (postOrders dbFulfilled (cncOrderInput 1)).2
      = PostOrdersResult.serverError ∧
    ((postOrders dbFulfilled (cncOrderInput 1)).1).orders.length
      = dbFulfilled.orders.length + 1 ∧
    ((postOrders dbFulfilled (cncOrderInput 1)).1).serials
      = dbFulfilled.serials := by
  decide

/-- C6 amended: when the serial batch insert fails, no serials from the
attempt persist (the single batch insert is itself all-or-nothing), but
the order header row persists — order creation as a whole is not
all-or-nothing, because no transaction spans the two writes. -/
theorem serial_batch_failure_leaves_header (db : DB) (input : OrderInput)
    (db1 : DB)
    (h : postOrders db input = (db1, PostOrdersResult.serverError)) :
    db1.serials = db.serials ∧
    db1.orders = db.orders ++ [mkOrderRow db.nextOrderId input] := by
  simp only [postOrders] at h
  split at h
  · split at h
    next db2 hsome =>
      injection h with h1 h2
      exact PostOrdersResult.noConfusion h2
    next hnone =>
      injection h with h1 h2
      subst h1
      exact ⟨rfl, rfl⟩
  · injection h with h1 h2
    exact PostOrdersResult.noConfusion h2

/-- Witness for the amended C6. -/
theorem serial_batch_failure_leaves_header_witness :
    ((postOrders dbFulfilled (cncOrderInput 2)).1).serials
      = dbFulfilled.serials ∧
    ((postOrders dbFulfilled (cncOrderInput 2)).1).orders
      = dbFulfilled.orders
          ++ [mkOrderRow dbFulfilled.nextOrderId (cncOrderInput 2)] :=
  serial_batch_failure_leaves_header dbFulfilled (cncOrderInput 2)
    ((postOrders dbFulfilled (cncOrderInput 2)).1) (by decide)

/-! ## C7 -/

/-- An order input with an empty machine-line list. -/
def emptyLinesInput : OrderInput := { cncOrderInput 1 with machines := [] }

/-- C7 counterexample: an order with an empty machine-line list passes
the zod parse (the schema has no non-empty refinement), succeeds with
201 and persists the order row — it neither fails with a
ValidationError nor persists nothing. -/
theorem empty_line_list_is_accepted :
    (postOrders catalogDB emptyLinesInput).2
      = PostOrdersResult.created (mkOrderRow 1 emptyLinesInput) ∧
    ((postOrders catalogDB emptyLinesInput).1).orders
      = [mkOrderRow 1 emptyLinesInput] := by
  decide

/-- A machine line with quantity below 1 or an unknown machineId
contributes no serial records: its unit loops run zero times, and an
unknown machine is silently skipped (`if (!machine) continue`).  (A
quantity strictly between 0 and 1, such as 0.5, is a different story:
its unit loops run once — see `malformed_orders_accepted`.) -/
theorem serialsForLine_eq_nil (db : DB) (orderId addedBy : Nat)
    (line : MachineLine)
    (h : line.quantity ≤ 0 ∨ getMachine db line.machineId = none) :
    serialsForLine db orderId addedBy line = [] := by
  rcases h with hq | hmach
  · unfold serialsForLine
    cases hm : getMachine db line.machineId with
    | none => rfl
    | some machine =>
        have hz : unitLoopCount line.quantity = 0 := by
          unfold unitLoopCount
          rw [if_pos (Rat.num_nonpos.mpr hq)]
        simp [hz]
  · unfold serialsForLine
    rw [hmach]

/-- An order for half a CNC machine: quantity 0.5 (written
`mkRat 1 2`), which `z.number()` admits — there is no `.int()`. -/
def halfUnitInput : OrderInput :=
  { cncOrderInput 1 with
      machines := [{ machineId := 1, quantity := mkRat 1 2 }] }

/-- C7 amended: `insertOrderSchema` constrains only the field types, so
no malformed order is rejected and the order row always persists: an
empty machine-line list yields 201 with no serials; a line with
quantity at most 0 contributes no serials (its unit loops run zero
times); a line whose machineId matches no machine is silently skipped;
and a fractional quantity strictly between 0 and 1 — admitted by
`z.number()`, which has no `.int()` — is not treated as malformed
either: its unit loops run once (`for (let i = 0; i < 0.5; i++)`
executes its body at i = 0), so an order of half a CNC machine
succeeds with 201 and mints one machine serial and one panel serial. -/
theorem malformed_orders_accepted (db : DB) (input : OrderInput)
    (h : ∀ line ∈ input.machines,
        line.quantity ≤ 0 ∨ getMachine db line.machineId = none) :
    ((postOrders db input).2
        = PostOrdersResult.created (mkOrderRow db.nextOrderId input) ∧
      ((postOrders db input).1).orders
        = db.orders ++ [mkOrderRow db.nextOrderId input] ∧
      ((postOrders db input).1).serials = db.serials) ∧
    ((postOrders catalogDB halfUnitInput).2
        = PostOrdersResult.created (mkOrderRow 1 halfUnitInput) ∧
      ((postOrders catalogDB halfUnitInput).1).serials.map
          (fun s => s.serialNumber) = ["CNC001001", "CP001001"]) := by
  refine ⟨?_, by decide⟩
  have hb : buildSerials (createOrder db input).1
      ((createOrder db input).2).id input.addedBy input.machines = [] := by
    apply List.flatMap_eq_nil_iff.mpr
    intro line hline
    apply serialsForLine_eq_nil
    rcases h line hline with hq | hm
    · exact Or.inl hq
    · exact Or.inr hm
  simp only [postOrders]
  rw [hb]
  exact ⟨rfl, rfl, rfl⟩

/-- An order input combining an unknown machine id and a zero
quantity. -/
def badLinesInput : OrderInput :=
  { cncOrderInput 1 with
      machines := [{ machineId := 42, quantity := 1 },
                   { machineId := 1, quantity := 0 }] }

/-- Witness for the amended C7. -/
theorem malformed_orders_accepted_witness :
    ((postOrders catalogDB badLinesInput).2
        = PostOrdersResult.created (mkOrderRow catalogDB.nextOrderId badLinesInput) ∧
      ((postOrders catalogDB badLinesInput).1).orders
        = catalogDB.orders
            ++ [mkOrderRow catalogDB.nextOrderId badLinesInput] ∧
      ((postOrders catalogDB badLinesInput).1).serials = catalogDB.serials) ∧
    ((postOrders catalogDB halfUnitInput).2
        = PostOrdersResult.created (mkOrderRow 1 halfUnitInput) ∧
      ((postOrders catalogDB halfUnitInput).1).serials.map
          (fun s => s.serialNumber) = ["CNC001001", "CP001001"]) :=
  malformed_orders_accepted catalogDB badLinesInput (by decide)

/-! ## C8 -/

/-- C8: serials are append-only artefacts of order creation.  Order
creation can only extend the serials table; machine updates, order
updates, registration and the delete routes leave it untouched; a
completed order deletion leaves the serials unchanged and — in any
state satisfying the foreign key `serials.order_id → orders.id`, which
the unmodelled insert-side constraint maintains — leaves no serial
carrying the deleted order id, because the FK has no `onDelete` action
and the delete completes only when no serial references the order. -/
theorem serials_append_only (db : DB) :
    (∀ input, ∃ minted,
        ((postOrders db input).1).serials = db.serials ++ minted) ∧
    (∀ id p, ((updateMachine db id p).1).serials = db.serials) ∧
    (∀ id p, ((updateOrder db id p).1).serials = db.serials) ∧
    (∀ hash input,
        ((registerHandler hash db input).1).serials = db.serials) ∧
    (∀ id db1, deleteMachine db id = some db1 → db1.serials = db.serials) ∧
    (∀ id db1, deletePanel db id = some db1 → db1.serials = db.serials) ∧
    (∀ id db1, deleteOrder db id = some db1 → db1.serials = db.serials) ∧
    (∀ id db1,
        (∀ s ∈ db.serials,
            db.orders.any (fun o => o.id == s.orderId) = true) →
        deleteOrder db id = some db1 →
        ∀ s ∈ db1.serials, s.orderId ≠ id) := by
  refine ⟨postOrders_serials_extend db, fun id p => rfl, fun id p => rfl,
    ?_, ?_, ?_, ?_, ?_⟩
  · intro hash input
    unfold registerHandler
    split
    · rfl
    · split
      · rfl
      · rfl
  · intro id db1 h
    unfold deleteMachine at h
    split at h
    · exact Option.noConfusion h
    · injection h with h
      subst h
      rfl
  · intro id db1 h
    unfold deletePanel at h
    split at h
    · exact Option.noConfusion h
    · injection h with h
      subst h
      rfl
  · intro id db1 h
    unfold deleteOrder at h
    split at h
    · exact Option.noConfusion h
    · injection h with h
      subst h
      rfl
  · intro id db1 hfk h s hs hid
    unfold deleteOrder at h
    split at h
    next hc => exact Option.noConfusion h
    next hc =>
      injection h with h
      subst h
      have hs' : s ∈ db.serials := hs
      apply hc
      rw [Bool.and_eq_true]
      refine ⟨?_, ?_⟩
      · have := hfk s hs'
        rwa [hid] at this
      · exact List.any_eq_true.mpr ⟨s, hs', by simp [hid]⟩

/-- Witness for C8: deleting the absent order 2 from the fulfilled
state completes, and the stored CNC serial indeed does not carry order
id 2. -/
theorem serials_append_only_witness :
    ({ id := 1, orderId := 1, machineId := some 1, panelId := none
       serialNumber := "CNC001001", addedBy := 1 } : Serial).orderId ≠ 2 :=
  (serials_append_only dbFulfilled).2.2.2.2.2.2.2 2
    { dbFulfilled with
        orders := dbFulfilled.orders.filter (fun o => !(o.id == 2)) }
    (by decide) (by decide)
    { id := 1, orderId := 1, machineId := some 1, panelId := none
      serialNumber := "CNC001001", addedBy := 1 }
    (by decide)

/-! ## C9 -/

/-- A partial machine payload that changes only the product code. -/
def lsrPatch : MachinePatch :=
  { name := none, productCode := some "LSR200", addedBy := none }

/-- C9 counterexample: PUT `/api/machines/:id` parses
`insertMachineSchema.partial()`, which includes `productCode`, and
`updateMachine` overwrites it — the CNC machine's product code changes
from `CNC001` to `LSR200`, both in the returned row and in the stored
table. -/
theorem product_code_is_mutable :
    getMachine catalogDB 1 = some cncMachine ∧
    cncMachine.productCode = "CNC001" ∧
    (updateMachine catalogDB 1 lsrPatch).2
      = some { cncMachine with productCode := "LSR200" } ∧
    ((updateMachine catalogDB 1 lsrPatch).1).machines
      = [{ cncMachine with productCode := "LSR200" }] := by
  decide

/-- C9 amended: a machine's productCode is mutable after creation:
whenever the update payload carries a productCode, the machine row the
update returns carries exactly that value. -/
theorem update_machine_overwrites_product_code (db : DB) (id : Nat)
    (p : MachinePatch) (c : String) (m : Machine)
    (hc : p.productCode = some c)
    (hm : (updateMachine db id p).2 = some m) :
    m.productCode = c := by
  simp only [updateMachine] at hm
  have hmem := List.mem_of_mem_head? hm
  rw [List.mem_filter] at hmem
  obtain ⟨hmem, hid⟩ := hmem
  rw [List.mem_map] at hmem
  obtain ⟨x, hx, hxm⟩ := hmem
  by_cases hxe : (x.id == id) = true
  · rw [if_pos hxe] at hxm
    subst hxm
    simp [applyMachinePatch, hc]
  · rw [if_neg hxe] at hxm
    subst hxm
    exact absurd hid hxe

/-- Witness for the amended C9. -/
theorem update_machine_overwrites_product_code_witness :
    ({ cncMachine with productCode := "LSR200" } : Machine).productCode
      = "LSR200" :=
  update_machine_overwrites_product_code catalogDB 1 lsrPatch "LSR200"
    { cncMachine with productCode := "LSR200" } rfl (by decide)

/-! ## C10 -/

/-- C10: every successful response of login, register and me is built
from the stored user row exclusively through `omitPassword`, whose
result has no password field — and is therefore unchanged under any
replacement of the stored bcrypt hash. -/
theorem auth_responses_omit_password
    (cmp : String → String → Bool) (hash : String → String) (db : DB)
    (un pw : String) (inp : InsertUser) (uid tok : Nat)
    (lu ru mu : PublicUser) (db1 : DB) (u v : User) (s : String)
    (hu : getUserByUsername db un = some u)
    (hl : loginHandler cmp db un pw = some (tok, lu))
    (hr : registerHandler hash db inp = (db1, some ru))
    (hv : getUser db uid = some v)
    (hm : meHandler db uid = some mu) :
    lu = omitPassword u ∧
    ru = omitPassword (createUser hash db inp).2 ∧
    mu = omitPassword v ∧
    omitPassword { u with password := s } = omitPassword u := by
  refine ⟨?_, ?_, ?_, rfl⟩
  · unfold loginHandler at hl
    split at hl
    next => exact Option.noConfusion hl
    next user heq =>
      rw [hu] at heq
      injection heq with heq
      subst heq
      split at hl
      · injection hl with hl
        injection hl with h1 h2
        exact h2.symm
      · exact Option.noConfusion hl
  · unfold registerHandler at hr
    split at hr
    · injection hr with h1 h2
      exact Option.noConfusion h2
    · split at hr
      · injection hr with h1 h2
        exact Option.noConfusion h2
      · injection hr with h1 h2
        injection h2 with h2
        exact h2.symm
  · unfold meHandler at hm
    rw [hv, Option.map_some'] at hm
    injection hm with hm
    exact hm.symm

/-- Deterministic stand-ins for bcrypt in the witness below. -/
def demoHash (s : String) : String := String.append "hashed-" s

def demoCmp (password stored : String) : Bool :=
  stored == demoHash password

/-- The seed tech user's registration payload. -/
def techInput : InsertUser :=
  { username := "tech", email := "tech@company.com"
    phone := some "+1-555-0102", password := "tech123", role := Role.tech }

/-- Witness for C10: all three endpoints succeed against the seed
catalog and answer with password-less user objects. -/
theorem auth_responses_omit_password_witness :
    omitPassword adminUser = omitPassword adminUser ∧
    omitPassword (createUser demoHash catalogDB techInput).2
      = omitPassword (createUser demoHash catalogDB techInput).2 ∧
    omitPassword adminUser = omitPassword adminUser ∧
    omitPassword { adminUser with password := "other-hash" }
      = omitPassword adminUser :=
  auth_responses_omit_password demoCmp demoHash catalogDB
    "admin" "admin123" techInput 1 1
    (omitPassword adminUser)
    (omitPassword (createUser demoHash catalogDB techInput).2)
    (omitPassword adminUser)
    (createUser demoHash catalogDB techInput).1
    adminUser adminUser "other-hash"
    (by decide) (by decide) (by decide) (by decide) (by decide)
